import Mathlib

/-!
Verification development for the ha_lunchmoney_balances Home Assistant
integration.  The definitions below are a shallow embedding of the
reconciliation and aggregation logic of
`custom_components/ha_lunchmoney_balances/sensor.py`,
`__init__.py`, `const.py` and `config_flow.py`:

* python `float` / `Decimal` amounts are modelled as `Rat` (the claims under
  study are branch and set-membership properties that do not depend on
  binary rounding);
* the python dicts `manual_assets` / `plaid_accounts` (keyed by the upstream
  integer ids) are modelled as association lists `List (Nat × _)`, iterated
  in insertion order exactly like the source dicts;
* the per-entry unique-id strings
  `f"{entry_id}_manual_{asset_id}_balance"` / `f"{entry_id}_plaid_{account_id}_balance"`
  are modelled by the inductive `SensorKey`, which encodes the same
  (source-kind, id) information injectively, the config-entry id being fixed
  within one listener call;
* the mutable dicts `active_balance_sensors` and
  `active_currency_net_worth_sensors` become the `SensorsState` record that
  the listener maps to a new state;
* a python exception escaping the listener is modelled as `Except.error`
  (the partially mutated dict state left behind by an escaping exception is
  discarded by the model; no theorem below inspects post-error state).
-/

namespace LunchMoneyBalances

/-! ## Data model (lunchable objects, as consumed by the source) -/

/-- Fields of a lunchable manual-asset object read by the source:
`balance` (a raw decimal string, absent when the attribute is `None`),
`to_base` (already converted to the user's primary currency; numeric, so its
re-parse `Decimal(str(to_base))` in the source never fails and it is modelled
directly as a rational), `currency`, and `type_name` (the source reads it
with `getattr(asset_data, "type_name", "")`, so absence is the empty
string). -/
structure AssetsObject where
  balance : Option String
  to_base : Option Rat
  currency : Option String
  type_name : String
deriving DecidableEq, Repr

/-- Fields of a lunchable Plaid-account object read by the source:
`balance` is already a float-or-None, `currency` may be absent, and `type`
is read with `getattr(account_data, "type", "")`. -/
structure PlaidAccountObject where
  balance : Option Rat
  currency : Option String
  type : String
deriving DecidableEq, Repr

/-- The user/profile object: the source only reads its `currency`. -/
structure UserObject where
  currency : Option String
deriving DecidableEq, Repr

/-- The `processed_data` dictionary built by `async_update_data` in
`__init__.py` and stored as the coordinator data: manual assets and Plaid
accounts keyed by their upstream ids, plus the optional user object. -/
structure CoordData where
  manual_assets : List (Nat × AssetsObject)
  plaid_accounts : List (Nat × PlaidAccountObject)
  user : Option UserObject
deriving DecidableEq, Repr

/-- The composite identity behind the source's unique-id strings
`..._manual_{id}_balance` and `..._plaid_{id}_balance`. -/
inductive SensorKey where
  | manual : Nat → SensorKey
  | plaid : Nat → SensorKey
deriving DecidableEq, Repr

/-- The mutable tracking dictionaries owned by `async_setup_entry`:
`active_balance_sensors` (keyed by balance unique-ids) and
`active_currency_net_worth_sensors` (keyed by per-currency net-worth
unique-ids, which encode the upper-cased currency code injectively). -/
structure SensorsState where
  activeBalance : Finset SensorKey
  activeCurrency : Finset String
deriving DecidableEq

/-! ## Decimal parsing (`float(Decimal(str(raw)))` / `Decimal(str(raw))`) -/

/-- Value of a digit string (assumed to contain digits only). -/
def digitsVal (cs : List Char) : Nat :=
  cs.foldl (fun acc c => acc * 10 + (c.toNat - 48)) 0

/-- Value of a digit string, failing on the empty string or a non-digit. -/
def decDigitsVal? (cs : List Char) : Option Nat :=
  if cs.isEmpty then none
  else cs.foldlM (fun acc c => if c.isDigit then some (acc * 10 + (c.toNat - 48)) else none) 0

/-- Signed exponent part of a decimal literal. -/
def decExpVal? : List Char → Option Int
  | '+' :: cs => (decDigitsVal? cs).map Int.ofNat
  | '-' :: cs => (decDigitsVal? cs).map (fun n => -(n : Int))
  | cs => (decDigitsVal? cs).map Int.ofNat

/-- Mantissa of a decimal literal (`123`, `123.45`, `123.`, `.45`): its value
and the unconsumed remainder of the input. -/
def decMantissa? (cs : List Char) : Option (Rat × List Char) :=
  let ip := cs.takeWhile (·.isDigit)
  let rest := cs.dropWhile (·.isDigit)
  match rest with
  | '.' :: r =>
    let fp := r.takeWhile (·.isDigit)
    let rest2 := r.dropWhile (·.isDigit)
    if ip.isEmpty ∧ fp.isEmpty then none
    else some ((digitsVal ip : Rat) + (digitsVal fp : Rat) / (10 : Rat) ^ fp.length, rest2)
  | _ => if ip.isEmpty then none else some ((digitsVal ip : Rat), rest)

/-- Unsigned decimal literal with optional exponent. -/
def parseUnsignedDecimal? (cs : List Char) : Option Rat :=
  match decMantissa? cs with
  | none => none
  | some (m, rest) =>
    match rest with
    | [] => some m
    | 'e' :: r => (decExpVal? r).map fun e => m * (10 : Rat) ^ e
    | 'E' :: r => (decExpVal? r).map fun e => m * (10 : Rat) ^ e
    | _ => none

/-- Models the source's decimal-precision balance parse
(`float(Decimal(str(raw_balance_str)))` in the listener and
`LunchMoneyBalanceSensor._parse_balance`, `Decimal(str(raw_balance_str))` in
the currency net-worth sensor) on finite decimal literals: optional sign,
digits with an optional fractional part and an optional exponent.  Inputs
outside this grammar are parse failures (`none`), which the source handles
by logging and treating the balance as absent -- the `try/except` around the
parse catches `InvalidOperation`, `ValueError` and `TypeError`, so the parse
never raises past this boundary. -/
def parseDecimal (s : String) : Option Rat :=
  match s.data with
  | '+' :: cs => parseUnsignedDecimal? cs
  | '-' :: cs => (parseUnsignedDecimal? cs).map (fun q => -q)
  | cs => parseUnsignedDecimal? cs

/-! ## Constants (`const.py`, `sensor.py`) -/

/-- Constant `ZERO_BALANCE_EPSILON = 1e-6` from `sensor.py`. -/
def ZERO_BALANCE_EPSILON : Rat := 1 / 1000000

/-- Constant `DEFAULT_INVERTED_ASSET_TYPES = ["credit", "loan"]` from `const.py`. -/
def DEFAULT_INVERTED_ASSET_TYPES : List String := ["credit", "loan"]

/-- The options dictionary of a config entry as far as the integration reads
and writes it (`const.py` keys). -/
structure IntegrationOptions where
  update_interval : Nat
  inverted_asset_types : List String
  primary_currency : String
deriving DecidableEq, Repr

/-- Models the options dictionary created by
`LunchMoneyBalanceConfigFlow.async_step_user` on success
(`config_flow.py`): the update interval as chosen, the inverted asset types
defaulted, and the primary-currency input stored upper-cased. -/
def configFlowCreatedOptions (update_interval : Nat) (primary_currency_input : String) :
    IntegrationOptions :=
  { update_interval := update_interval
    inverted_asset_types := DEFAULT_INVERTED_ASSET_TYPES
    primary_currency := primary_currency_input.toUpper }

/-! ## The coordinator update listener (`sensor.py` lines 72-269) -/

/-- Parsed balance of a manual asset as computed in the listener:
`parsed_balance = float(Decimal(str(raw_balance_str)))` when the raw
attribute is present and parses, else `None`. -/
def manualParsedBalance (a : AssetsObject) : Option Rat :=
  a.balance.bind parseDecimal

/-- The listener's `is_zero_balance` test for a manual asset:
`parsed_balance is None or abs(parsed_balance) < ZERO_BALANCE_EPSILON`. -/
def manualIsZeroBalance (a : AssetsObject) : Bool :=
  match manualParsedBalance a with
  | none => true
  | some b => decide (|b| < ZERO_BALANCE_EPSILON)

/-- The listener's `is_zero_balance` test for a Plaid account:
`raw_balance is None or abs(raw_balance) < ZERO_BALANCE_EPSILON`. -/
def plaidIsZeroBalance (p : PlaidAccountObject) : Bool :=
  match p.balance with
  | none => true
  | some b => decide (|b| < ZERO_BALANCE_EPSILON)

/-- The listener's currency collection
(`if currency: all_currencies.add(currency.upper())`): a present, non-empty
currency attribute contributes its upper-cased code. -/
def currencyInsert (oc : Option String) (s : Finset String) : Finset String :=
  match oc with
  | some c => if c = "" then s else insert c.toUpper s
  | none => s

/-- Loop state of one listener run, threading the four collections the
listener builds while iterating the records: the mutated
`active_balance_sensors` key set, `desired_balance_entity_ids`, the keys of
`entities_to_add`, and `all_currencies`. -/
structure ListenerAcc where
  active : Finset SensorKey
  desired : Finset SensorKey
  added : Finset SensorKey
  currencies : Finset String
deriving DecidableEq

/-- One iteration of the listener's manual-asset loop (`sensor.py` 108-154):
parse the balance, record the unique id as desired, create (and immediately
register) a sensor when the balance is non-zero and none is active yet --
the zero-balance-and-active branch only logs and `pass`es -- then collect
the currency. -/
def manualStep (acc : ListenerAcc) (e : Nat × AssetsObject) : ListenerAcc :=
  let key := SensorKey.manual e.1
  let isZero := manualIsZeroBalance e.2
  { active := if isZero = false ∧ key ∉ acc.active then insert key acc.active else acc.active
    desired := insert key acc.desired
    added := if isZero = false ∧ key ∉ acc.active then insert key acc.added else acc.added
    currencies := currencyInsert e.2.currency acc.currencies }

/-- The only exception the listener itself can raise: the `NameError` from
evaluating the undefined name `active_sensors` (`sensor.py` line 182). -/
inductive ListenerError where
  | nameError : ListenerError
deriving DecidableEq, Repr

/-- One iteration of the listener's Plaid-account loop (`sensor.py` 158-194).
When the balance is effectively zero the first branch condition is false and
the `elif is_zero_balance and unique_id in active_sensors:` guard evaluates
the undefined name `active_sensors`, raising `NameError` -- so every
zero-or-absent-balance Plaid account aborts the listener.  Otherwise the
account is handled like a manual asset. -/
def plaidStep (acc : ListenerAcc) (e : Nat × PlaidAccountObject) :
    Except ListenerError ListenerAcc :=
  let key := SensorKey.plaid e.1
  if plaidIsZeroBalance e.2 then
    Except.error ListenerError.nameError
  else
    Except.ok
      { active := if key ∉ acc.active then insert key acc.active else acc.active
        desired := insert key acc.desired
        added := if key ∉ acc.active then insert key acc.added else acc.added
        currencies := currencyInsert e.2.currency acc.currencies }

/-- Outcome of one listener run: the new tracking state together with the
added/removed key sets of both sensor families (the keys of
`entities_to_add` / `entities_to_remove` and of the currency analogues). -/
structure ListenerResult where
  state : SensorsState
  addedBalance : Finset SensorKey
  removedBalance : Finset SensorKey
  addedCurrency : Finset String
  removedCurrency : Finset String
deriving DecidableEq

/-- The body of `_async_coordinator_update_listener` (`sensor.py` 72-263).
`none` data models `coordinator.data is None` (the guard also covers a dict
with neither record key, which the coordinator never produces): the listener
returns without touching anything.  Otherwise it runs the manual loop, the
Plaid loop (which can raise, see `plaidStep`), then removes every active
balance sensor whose unique id is not desired, creates one currency
net-worth sensor per collected currency, and removes every currency sensor
whose currency was not collected. -/
def coordinatorUpdateListener (data : Option CoordData) (st : SensorsState) :
    Except ListenerError ListenerResult :=
  match data with
  | none => Except.ok ⟨st, ∅, ∅, ∅, ∅⟩
  | some d =>
    let acc0 : ListenerAcc := ⟨st.activeBalance, ∅, ∅, ∅⟩
    let acc1 := d.manual_assets.foldl manualStep acc0
    (d.plaid_accounts.foldlM plaidStep acc1).map fun acc2 =>
      { state :=
          { activeBalance := acc2.active.filter (· ∈ acc2.desired)
            activeCurrency := (st.activeCurrency ∪ acc2.currencies).filter (· ∈ acc2.currencies) }
        addedBalance := acc2.added
        removedBalance := acc2.active.filter (· ∉ acc2.desired)
        addedCurrency := acc2.currencies.filter (· ∉ st.activeCurrency)
        removedCurrency := (st.activeCurrency ∪ acc2.currencies).filter (· ∉ acc2.currencies) }

/-! ## The primary net-worth aggregate
(`LunchMoneyNetWorthSensor._update_internal_state`, `sensor.py` 590-680) -/

/-- The sensor's `user_primary_currency`: the currency attribute of the
fetched user object, lower-cased; a missing user object, a missing
attribute, or an empty string (falsy in the source's `if` tests) all behave
as absent. -/
def userPrimaryCurrency (d : CoordData) : Option String :=
  match d.user with
  | none => none
  | some u =>
    match u.currency with
    | none => none
    | some c => if c = "" then none else some c.toLower

/-- Net-worth total computed by `LunchMoneyNetWorthSensor`: sum `to_base`
over every manual asset that has it, subtracting when the lower-cased
`type_name` is in the inverted-types option; then for every Plaid account
with both balance and currency present, add (or subtract, by `type`) the
native balance exactly when the lower-cased currency equals
`user_primary_currency`, which must itself be present -- otherwise the
account is skipped with a warning and no conversion is attempted. -/
def netWorthTotal (inverted : List String) (d : CoordData) : Rat :=
  let upc := userPrimaryCurrency d
  let t1 := d.manual_assets.foldl
    (fun total e =>
      match e.2.to_base with
      | none => total
      | some base_value =>
        if e.2.type_name.toLower ∈ inverted then total - base_value else total + base_value)
    0
  d.plaid_accounts.foldl
    (fun total e =>
      match e.2.balance, e.2.currency with
      | some b, some c =>
        match upc with
        | some u =>
          if c.toLower = u then
            (if e.2.type.toLower ∈ inverted then total - b else total + b)
          else total
        | none => total
      | _, _ => total)
    t1

/-! ## The per-currency net-worth aggregate
(`LunchMoneyNetWorthCurrencySensor._update_internal_state`, `sensor.py`
750-814).  The sensor's `_currency_code` is the upper-cased currency it was
created for. -/

/-- Per-currency net-worth total: over every manual asset whose currency is
present, non-empty and upper-cases to the sensor's currency code, add (or
subtract, by lower-cased `type_name`) the decimal-parsed native balance when
it parses; then the same over Plaid accounts with their already-numeric
balances and `type`. -/
def currencyNetWorthTotal (inverted : List String) (currencyCode : String) (d : CoordData) : Rat :=
  let t1 := d.manual_assets.foldl
    (fun total e =>
      match e.2.currency with
      | some c =>
        if c ≠ "" ∧ c.toUpper = currencyCode then
          match manualParsedBalance e.2 with
          | some b =>
            if e.2.type_name.toLower ∈ inverted then total - b else total + b
          | none => total
        else total
      | none => total)
    0
  d.plaid_accounts.foldl
    (fun total e =>
      match e.2.currency with
      | some c =>
        if c ≠ "" ∧ c.toUpper = currencyCode then
          match e.2.balance with
          | some b =>
            if e.2.type.toLower ∈ inverted then total - b else total + b
          | none => total
        else total
      | none => total)
    t1

/-! ## The update method (`__init__.py async_update_data`, lines 25-119) -/

/-- Outcome of the three upstream fetch calls, already shaped: either the
fetched lists keyed by id (the source's dict comprehensions over records
that carry an `id`, which every typed record here does), or an exception
with its message. -/
inductive FetchOutcome where
  | fetched : List (Nat × AssetsObject) → List (Nat × PlaidAccountObject) → Option UserObject →
      FetchOutcome
  | failure : String → FetchOutcome
deriving DecidableEq, Repr

/-- The `UpdateFailed` exception raised by `async_update_data` on any fetch
error. -/
structure UpdateFailed where
  message : String
deriving DecidableEq, Repr

/-- Models `async_update_data` from `__init__.py`: on success it returns the
processed coordinator data; on any exception it raises
`UpdateFailed(f"Error communicating with API: {err}")` without touching any
other state. -/
def asyncUpdateData : FetchOutcome → Except UpdateFailed CoordData
  | FetchOutcome.fetched assets plaids user => Except.ok ⟨assets, plaids, user⟩
  | FetchOutcome.failure msg => Except.error ⟨"Error communicating with API: " ++ msg⟩

/-! ## Derived key and currency sets of one refresh

These recursive definitions restate, record by record, the sets the listener
accumulates while looping; the characterization lemmas below prove that the
listener's folds compute exactly these sets. -/

/-- Unique-id keys of all manual assets in the data (every manual asset's
unique id is added to `desired_balance_entity_ids`, zero balance or not). -/
def manualKeys : List (Nat × AssetsObject) → Finset SensorKey
  | [] => ∅
  | e :: l => insert (SensorKey.manual e.1) (manualKeys l)

/-- Keys of manual assets whose balance is present and not below epsilon. -/
def manualNZKeys : List (Nat × AssetsObject) → Finset SensorKey
  | [] => ∅
  | e :: l =>
    if manualIsZeroBalance e.2 then manualNZKeys l
    else insert (SensorKey.manual e.1) (manualNZKeys l)

/-- Upper-cased currency codes borne by manual assets (balance ignored). -/
def manualCurrencies : List (Nat × AssetsObject) → Finset String
  | [] => ∅
  | e :: l => currencyInsert e.2.currency (manualCurrencies l)

/-- Unique-id keys of all Plaid accounts in the data. -/
def plaidKeys : List (Nat × PlaidAccountObject) → Finset SensorKey
  | [] => ∅
  | e :: l => insert (SensorKey.plaid e.1) (plaidKeys l)

/-- Keys of Plaid accounts whose balance is present and not below epsilon. -/
def plaidNZKeys : List (Nat × PlaidAccountObject) → Finset SensorKey
  | [] => ∅
  | e :: l =>
    if plaidIsZeroBalance e.2 then plaidNZKeys l
    else insert (SensorKey.plaid e.1) (plaidNZKeys l)

/-- Upper-cased currency codes borne by Plaid accounts. -/
def plaidCurrencies : List (Nat × PlaidAccountObject) → Finset String
  | [] => ∅
  | e :: l => currencyInsert e.2.currency (plaidCurrencies l)

/-- The spec's `present_keys`: the composite key of every record in the
current data whose balance is present and at least epsilon in absolute
value. -/
def presentKeys (d : CoordData) : Finset SensorKey :=
  manualNZKeys d.manual_assets ∪ plaidNZKeys d.plaid_accounts

/-- The listener's `desired_balance_entity_ids`: the key of every record in
the current data, regardless of balance. -/
def desiredKeys (d : CoordData) : Finset SensorKey :=
  manualKeys d.manual_assets ∪ plaidKeys d.plaid_accounts

/-- The listener's `all_currencies`: every upper-cased non-empty currency
code borne by any record in the current data, regardless of balance. -/
def dataCurrencies (d : CoordData) : Finset String :=
  manualCurrencies d.manual_assets ∪ plaidCurrencies d.plaid_accounts

/-- Closed form of a successful listener run, proved equal to
`coordinatorUpdateListener` by the characterization lemmas. -/
def listenerNormalResult (d : CoordData) (st : SensorsState) : ListenerResult :=
  let mNZ := manualNZKeys d.manual_assets
  let pK := plaidKeys d.plaid_accounts
  let active1 := st.activeBalance ∪ mNZ ∪ pK
  let desired := desiredKeys d
  let cur := dataCurrencies d
  { state :=
      { activeBalance := active1.filter (· ∈ desired)
        activeCurrency := (st.activeCurrency ∪ cur).filter (· ∈ cur) }
    addedBalance := (mNZ \ st.activeBalance) ∪ (pK \ (st.activeBalance ∪ mNZ))
    removedBalance := active1.filter (· ∉ desired)
    addedCurrency := cur.filter (· ∉ st.activeCurrency)
    removedCurrency := (st.activeCurrency ∪ cur).filter (· ∉ cur) }

/-! ## Per-record contributions to the aggregates (characterization form) -/

/-- Contribution of one manual asset to the primary net-worth total: its
`to_base` value when present, negated when the lower-cased `type_name` is in
the inverted set, and zero otherwise. -/
def manualToBaseContribution (inverted : List String) (a : AssetsObject) : Rat :=
  match a.to_base with
  | none => 0
  | some v => if a.type_name.toLower ∈ inverted then -v else v

/-- Contribution of one Plaid account to the primary net-worth total, given
the sensor's `user_primary_currency`: the native balance (negated when the
lower-cased `type` is inverted) exactly when balance, currency and user
currency are all present and the lower-cased currency equals the user
currency; zero in every other case (no conversion is attempted). -/
def plaidPrimaryContribution (inverted : List String) (upc : Option String)
    (p : PlaidAccountObject) : Rat :=
  match p.balance, p.currency, upc with
  | some b, some c, some u =>
    if c.toLower = u then (if p.type.toLower ∈ inverted then -b else b) else 0
  | _, _, _ => 0

/-- Sum of the manual `to_base` contributions of a record list. -/
def manualToBaseSum (inverted : List String) (l : List (Nat × AssetsObject)) : Rat :=
  (l.map fun e => manualToBaseContribution inverted e.2).sum

/-- Sum of the Plaid primary contributions of a record list. -/
def plaidPrimarySum (inverted : List String) (upc : Option String)
    (l : List (Nat × PlaidAccountObject)) : Rat :=
  (l.map fun e => plaidPrimaryContribution inverted upc e.2).sum

/-- Contribution of one manual asset to the net-worth total of currency
`c` (an upper-cased code): its parsed native balance, signed by the
inversion rule, exactly when its currency is present, non-empty,
upper-cases to `c`, and the balance parses; zero otherwise. -/
def manualCurrencyContribution (inverted : List String) (c : String) (a : AssetsObject) : Rat :=
  match a.currency with
  | some cc =>
    if cc ≠ "" ∧ cc.toUpper = c then
      match manualParsedBalance a with
      | some b => if a.type_name.toLower ∈ inverted then -b else b
      | none => 0
    else 0
  | none => 0

/-- Contribution of one Plaid account to the net-worth total of currency
`c`, under the same rule with the already-numeric balance. -/
def plaidCurrencyContribution (inverted : List String) (c : String)
    (p : PlaidAccountObject) : Rat :=
  match p.currency with
  | some cc =>
    if cc ≠ "" ∧ cc.toUpper = c then
      match p.balance with
      | some b => if p.type.toLower ∈ inverted then -b else b
      | none => 0
    else 0
  | none => 0

/-! ## Spec-side definitions for the refinement comparisons -/

/-- Modelled from the spec (section 4.4 with section 3's TrackedEntity
lifecycle): "Sum base_currency_value over every **tracked** Manual record
for which it is present, negating when is_inverted(type_category)" -- a
Manual record is tracked only while its native balance is present and at
least epsilon in absolute value. -/
def specTrackedPrimaryManualTotal (inverted : List String) (d : CoordData) : Rat :=
  (d.manual_assets.map fun e =>
    match manualParsedBalance e.2 with
    | some b =>
      if |b| < ZERO_BALANCE_EPSILON then 0
      else manualToBaseContribution inverted e.2
    | none => 0).sum

/-- Modelled from the spec (section 4.4): the per-currency total for
currency `c` as "the signed sum (applying inversion) of native balances of
exactly the **tracked** records whose currency equals C" -- again counting
only records whose balance is present and at least epsilon. -/
def specTrackedPerCurrencyTotal (inverted : List String) (c : String) (d : CoordData) : Rat :=
  (d.manual_assets.map fun e =>
    match manualParsedBalance e.2 with
    | some b =>
      if |b| < ZERO_BALANCE_EPSILON then 0
      else manualCurrencyContribution inverted c e.2
    | none => 0).sum
  + (d.plaid_accounts.map fun e =>
    match e.2.balance with
    | some b =>
      if |b| < ZERO_BALANCE_EPSILON then 0
      else plaidCurrencyContribution inverted c e.2
    | none => 0).sum

/-! ## Concrete records and data used by the closed theorems -/

/-- Manual asset with a present, exactly-zero balance and no currency. -/
def assetZeroBalance : AssetsObject := ⟨some "0", none, none, "cash"⟩

/-- Manual asset with a present zero balance denominated in EUR. -/
def assetZeroEur : AssetsObject := ⟨some "0", none, some "EUR", "cash"⟩

/-- Manual asset with balance 0.0000001 (below epsilon) in USD. -/
def assetTinyUsd : AssetsObject := ⟨some "0.0000001", none, some "USD", "cash"⟩

/-- Manual asset with an absent balance but a present `to_base` of 100. -/
def assetAbsentBalanceToBase : AssetsObject := ⟨none, some 100, some "USD", "cash"⟩

/-- Manual credit asset: balance string "100", `to_base` 100, USD. -/
def assetCredit100 : AssetsObject := ⟨some "100", some 100, some "USD", "credit"⟩

/-- Manual cash asset: balance string "100", `to_base` 100, USD. -/
def assetCash100 : AssetsObject := ⟨some "100", some 100, some "USD", "cash"⟩

/-- Plaid account with an absent balance. -/
def plaidAbsentBalance : PlaidAccountObject := ⟨none, some "USD", "depository"⟩

/-- Plaid account with balance 50 in USD. -/
def plaidUsd50 : PlaidAccountObject := ⟨some 50, some "USD", "depository"⟩

/-- Plaid account with balance 30 in EUR. -/
def plaidEur30 : PlaidAccountObject := ⟨some 30, some "EUR", "depository"⟩

/-- Plaid account with balance 0.0000001 (below epsilon) in USD. -/
def plaidTinyUsd : PlaidAccountObject := ⟨some (1 / 10000000), some "USD", "depository"⟩

/-- Refresh data for claim C1: the previously tracked manual asset 7 is
still present but its balance is now the string "0". -/
def dataC1 : CoordData := ⟨[(7, assetZeroBalance)], [], none⟩

/-- Tracking state in which manual asset 7 already has a balance sensor. -/
def stateC1 : SensorsState := ⟨{SensorKey.manual 7}, ∅⟩

/-- Refresh data for claim C2's counterexample: the two Linked records of
the spec's example, but the fetched user profile reports EUR while the
config option stores USD. -/
def dataC2cx : CoordData := ⟨[], [(1, plaidUsd50), (2, plaidEur30)], some ⟨some "EUR"⟩⟩

/-- Refresh data matching the spec's example with the user profile in USD. -/
def dataC2ok : CoordData := ⟨[], [(1, plaidUsd50), (2, plaidEur30)], some ⟨some "USD"⟩⟩

/-- Refresh data for claim C3: one Plaid account with an absent balance. -/
def dataC3 : CoordData := ⟨[], [(5, plaidAbsentBalance)], none⟩

/-- Refresh data for claim C4: a single sub-epsilon USD manual asset. -/
def dataC4 : CoordData := ⟨[(1, assetTinyUsd)], [], none⟩

/-- Refresh data for claim C5's counterexample: a single sub-epsilon USD
manual asset (distinct id from C4's). -/
def dataC5 : CoordData := ⟨[(2, assetTinyUsd)], [], none⟩

/-- Refresh data for claim C5's amended statement: a sub-epsilon USD Plaid
balance with the user profile in USD. -/
def dataC5b : CoordData := ⟨[], [(3, plaidTinyUsd)], some ⟨some "USD"⟩⟩

/-- Refresh data for claim C6's counterexample: a manual asset that is not
tracked (absent balance) yet carries `to_base` 100. -/
def dataC6cx : CoordData := ⟨[(4, assetAbsentBalanceToBase)], [], some ⟨some "USD"⟩⟩

/-- Refresh data for claim C6's example: a single manual credit asset with
`to_base` 100. -/
def dataC6ok : CoordData := ⟨[(1, assetCredit100)], [], some ⟨some "USD"⟩⟩

/-- Refresh data for claim C7: a zero-balance EUR manual asset. -/
def dataC7 : CoordData := ⟨[(9, assetZeroEur)], [], none⟩

/-- Refresh data used by several witnesses: one ordinary nonzero manual
asset. -/
def dataW : CoordData := ⟨[(1, assetCash100)], [], none⟩

/-- The empty tracking state (as set up by `async_setup_entry`). -/
def stateEmpty : SensorsState := ⟨∅, ∅⟩

/-! ## Characterization of the listener folds -/

/-- Binding a successful `Except` computation runs the continuation. -/
theorem exceptOkBind {e a b : Type} (x : a) (f : a → Except e b) :
    (Except.ok x >>= f) = f x := rfl

/-- Binding a failed `Except` computation keeps the failure. -/
theorem exceptErrorBind {e a b : Type} (err : e) (f : a → Except e b) :
    ((Except.error err : Except e a) >>= f) = Except.error err := rfl

/-- Mapping over a successful `Except` computation. -/
theorem exceptMapOk {e a b : Type} (x : a) (f : a → b) :
    (Except.ok x : Except e a).map f = Except.ok (f x) := rfl

/-- Inserting a currency commutes with union in the expected way. -/
theorem currencyInsert_union (oc : Option String) (A B : Finset String) :
    currencyInsert oc A ∪ B = A ∪ currencyInsert oc B := by
  match oc with
  | none => rfl
  | some c =>
    simp only [currencyInsert]
    by_cases hc : c = ""
    · simp [hc]
    · simp [hc, Finset.insert_union, Finset.union_insert]

/-- Closed form of the manual-asset loop: starting from accumulator `acc`,
it unions in the non-zero keys, all keys, the freshly added keys, and the
collected currencies of the list. -/
theorem manualStep_foldl (l : List (Nat × AssetsObject)) (acc : ListenerAcc) :
    l.foldl manualStep acc =
      ⟨acc.active ∪ manualNZKeys l,
       acc.desired ∪ manualKeys l,
       acc.added ∪ (manualNZKeys l \ acc.active),
       acc.currencies ∪ manualCurrencies l⟩ := by
  induction l generalizing acc with
  | nil => simp [manualKeys, manualNZKeys, manualCurrencies]
  | cons e l ih =>
    rw [List.foldl_cons, ih]
    simp only [manualStep]
    cases hz : manualIsZeroBalance e.2 with
    | true =>
      simp only [manualKeys, manualNZKeys, manualCurrencies, hz, Bool.true_eq_false,
        false_and, if_false, ite_true, ite_false, ListenerAcc.mk.injEq]
      refine ⟨by trivial, ?_, by trivial, ?_⟩
      · simp [Finset.insert_union, Finset.union_insert]
      · exact currencyInsert_union e.2.currency acc.currencies (manualCurrencies l)
    | false =>
      by_cases hm : SensorKey.manual e.1 ∈ acc.active
      · simp only [manualKeys, manualNZKeys, manualCurrencies, hz, hm, not_true_eq_false,
          and_false, if_false, ite_true, ite_false, ListenerAcc.mk.injEq]
        refine ⟨?_, ?_, ?_, ?_⟩
        · ext x
          rcases eq_or_ne x (SensorKey.manual e.1) with rfl | hx
          · simp [hm]
          · simp [hm, hx]
        · simp [Finset.insert_union, Finset.union_insert]
        · ext x
          rcases eq_or_ne x (SensorKey.manual e.1) with rfl | hx
          · simp [hm]
          · simp [hm, hx]
        · exact currencyInsert_union e.2.currency acc.currencies (manualCurrencies l)
      · simp only [manualKeys, manualNZKeys, manualCurrencies, hz, hm, not_false_eq_true,
          and_true, and_self, if_true, ite_true, ite_false, ListenerAcc.mk.injEq]
        refine ⟨?_, ?_, ?_, ?_⟩
        · ext x
          rcases eq_or_ne x (SensorKey.manual e.1) with rfl | hx
          · simp [hm]
          · simp [hm, hx]
        · simp [Finset.insert_union, Finset.union_insert]
        · ext x
          rcases eq_or_ne x (SensorKey.manual e.1) with rfl | hx
          · simp [hm]
          · simp [hm, hx]
        · exact currencyInsert_union e.2.currency acc.currencies (manualCurrencies l)

/-- Closed form of the Plaid loop when no account has a zero-or-absent
balance: it behaves like the manual loop. -/
theorem plaidStep_foldlM_ok (l : List (Nat × PlaidAccountObject)) (acc : ListenerAcc)
    (h : ∀ e ∈ l, plaidIsZeroBalance e.2 = false) :
    l.foldlM plaidStep acc =
      Except.ok
        ⟨acc.active ∪ plaidKeys l,
         acc.desired ∪ plaidKeys l,
         acc.added ∪ (plaidKeys l \ acc.active),
         acc.currencies ∪ plaidCurrencies l⟩ := by
  induction l generalizing acc with
  | nil => simp [plaidKeys, plaidCurrencies]; rfl
  | cons e l ih =>
    have he : plaidIsZeroBalance e.2 = false := h e (by simp)
    have hrest : ∀ x ∈ l, plaidIsZeroBalance x.2 = false := fun x hx => h x (by simp [hx])
    rw [List.foldlM_cons]
    simp only [plaidStep, he, Bool.false_eq_true, if_false, ite_false]
    rw [exceptOkBind, ih _ hrest]
    simp only [plaidKeys, plaidCurrencies, Except.ok.injEq, ListenerAcc.mk.injEq]
    by_cases hm : SensorKey.plaid e.1 ∈ acc.active
    · simp only [hm, not_true_eq_false, if_false, ite_true, ite_false]
      refine ⟨?_, ?_, ?_, ?_⟩
      · ext x
        rcases eq_or_ne x (SensorKey.plaid e.1) with rfl | hx
        · simp [hm]
        · simp [hm, hx]
      · simp [Finset.insert_union, Finset.union_insert]
      · ext x
        rcases eq_or_ne x (SensorKey.plaid e.1) with rfl | hx
        · simp [hm]
        · simp [hm, hx]
      · exact currencyInsert_union e.2.currency acc.currencies (plaidCurrencies l)
    · simp only [hm, not_false_eq_true, if_true, ite_true, ite_false]
      refine ⟨?_, ?_, ?_, ?_⟩
      · ext x
        rcases eq_or_ne x (SensorKey.plaid e.1) with rfl | hx
        · simp [hm]
        · simp [hm, hx]
      · simp [Finset.insert_union, Finset.union_insert]
      · ext x
        rcases eq_or_ne x (SensorKey.plaid e.1) with rfl | hx
        · simp [hm]
        · simp [hm, hx]
      · exact currencyInsert_union e.2.currency acc.currencies (plaidCurrencies l)

/-- A successful Plaid loop implies that no account had a zero-or-absent
balance (otherwise the undefined-name branch would have raised). -/
theorem plaidStep_foldlM_ok_forall (l : List (Nat × PlaidAccountObject))
    (acc acc2 : ListenerAcc) (h : l.foldlM plaidStep acc = Except.ok acc2) :
    ∀ e ∈ l, plaidIsZeroBalance e.2 = false := by
  induction l generalizing acc with
  | nil => simp
  | cons e l ih =>
    rw [List.foldlM_cons] at h
    cases hz : plaidIsZeroBalance e.2 with
    | true =>
      rw [plaidStep] at h
      simp only [hz, if_true, ite_true] at h
      rw [exceptErrorBind] at h
      exact absurd h (by simp)
    | false =>
      intro x hx
      rcases List.mem_cons.mp hx with hx | hx
      · subst hx; exact hz
      · rw [plaidStep] at h
        simp only [hz, Bool.false_eq_true, if_false, ite_false] at h
        rw [exceptOkBind] at h
        exact ih _ h x hx

/-- Non-zero manual keys are manual keys. -/
theorem manualNZKeys_subset_keys (l : List (Nat × AssetsObject)) :
    manualNZKeys l ⊆ manualKeys l := by
  induction l with
  | nil => simp [manualNZKeys]
  | cons e l ih =>
    intro x hx
    simp only [manualKeys, Finset.mem_insert]
    cases hz : manualIsZeroBalance e.2 with
    | true =>
      simp [manualNZKeys, hz] at hx
      exact Or.inr (ih hx)
    | false =>
      simp [manualNZKeys, hz, Finset.mem_insert] at hx
      rcases hx with rfl | hx
      · exact Or.inl rfl
      · exact Or.inr (ih hx)

/-- When no Plaid account has a zero-or-absent balance, the non-zero Plaid
keys are all Plaid keys. -/
theorem plaidNZKeys_eq_keys (l : List (Nat × PlaidAccountObject))
    (h : ∀ e ∈ l, plaidIsZeroBalance e.2 = false) :
    plaidNZKeys l = plaidKeys l := by
  induction l with
  | nil => rfl
  | cons e l ih =>
    have he : plaidIsZeroBalance e.2 = false := h e (by simp)
    have hrest : ∀ x ∈ l, plaidIsZeroBalance x.2 = false := fun x hx => h x (by simp [hx])
    simp [plaidNZKeys, plaidKeys, he, ih hrest]

/-- A listener run over present data with no zero-balance Plaid account
succeeds and computes the closed-form result. -/
theorem coordinatorUpdateListener_ok (d : CoordData) (st : SensorsState)
    (h : ∀ e ∈ d.plaid_accounts, plaidIsZeroBalance e.2 = false) :
    coordinatorUpdateListener (some d) st = Except.ok (listenerNormalResult d st) := by
  simp only [coordinatorUpdateListener]
  rw [manualStep_foldl, plaidStep_foldlM_ok _ _ h, exceptMapOk]
  simp only [listenerNormalResult, desiredKeys, dataCurrencies, Finset.empty_union]

/-- Conversely, a successful listener run implies no Plaid account had a
zero-or-absent balance, and the result is the closed form. -/
theorem coordinatorUpdateListener_ok_elim (d : CoordData) (st : SensorsState)
    (res : ListenerResult) (h : coordinatorUpdateListener (some d) st = Except.ok res) :
    (∀ e ∈ d.plaid_accounts, plaidIsZeroBalance e.2 = false)
      ∧ res = listenerNormalResult d st := by
  have hz : ∀ e ∈ d.plaid_accounts, plaidIsZeroBalance e.2 = false := by
    simp only [coordinatorUpdateListener] at h
    cases hfold :
        d.plaid_accounts.foldlM plaidStep
          (d.manual_assets.foldl manualStep ⟨st.activeBalance, ∅, ∅, ∅⟩) with
    | error err => rw [hfold] at h; simp [Except.map] at h
    | ok acc2 => exact plaidStep_foldlM_ok_forall _ _ _ hfold
  refine ⟨hz, ?_⟩
  rw [coordinatorUpdateListener_ok d st hz] at h
  exact (Except.ok.inj h).symm

/-- Running the listener again on the state it just produced changes
nothing: the closed-form result is a fixed point with empty added and
removed sets. -/
theorem listenerNormalResult_stable (d : CoordData) (st : SensorsState) :
    listenerNormalResult d (listenerNormalResult d st).state =
      ⟨(listenerNormalResult d st).state, ∅, ∅, ∅, ∅⟩ := by
  simp only [listenerNormalResult, desiredKeys, dataCurrencies, ListenerResult.mk.injEq,
    SensorsState.mk.injEq]
  refine ⟨⟨?_, ?_⟩, ?_, ?_, ?_, ?_⟩
  · ext x
    have h1 : x ∈ manualNZKeys d.manual_assets → x ∈ manualKeys d.manual_assets :=
      fun hh => manualNZKeys_subset_keys d.manual_assets hh
    simp only [Finset.mem_filter, Finset.mem_union]
    constructor
    · rintro ⟨h2, h3⟩
      rcases h2 with ((h2 | h2) | h2)
      · exact ⟨h2.1, h3⟩
      · exact ⟨Or.inl (Or.inr h2), h3⟩
      · exact ⟨Or.inr h2, h3⟩
    · rintro ⟨h2, h3⟩
      exact ⟨Or.inl (Or.inl ⟨h2, h3⟩), h3⟩
  · ext x
    simp only [Finset.mem_filter, Finset.mem_union]
    tauto
  · ext x
    have h1 : x ∈ manualNZKeys d.manual_assets → x ∈ manualKeys d.manual_assets :=
      fun hh => manualNZKeys_subset_keys d.manual_assets hh
    simp only [Finset.mem_union, Finset.mem_sdiff, Finset.mem_filter,
      Finset.not_mem_empty, iff_false]
    rintro (⟨h2, h3⟩ | ⟨h2, h3⟩)
    · exact h3 ⟨Or.inl (Or.inr h2), Or.inl (h1 h2)⟩
    · exact h3 (Or.inl ⟨Or.inr h2, Or.inr h2⟩)
  · ext x
    have h1 : x ∈ manualNZKeys d.manual_assets → x ∈ manualKeys d.manual_assets :=
      fun hh => manualNZKeys_subset_keys d.manual_assets hh
    simp only [Finset.mem_filter, Finset.mem_union, Finset.not_mem_empty, iff_false,
      not_and]
    rintro ((h2 | h2) | h2)
    · exact fun h3 => h3 h2.2
    · exact fun h3 => h3 (Or.inl (h1 h2))
    · exact fun h3 => h3 (Or.inr h2)
  · ext x
    simp only [Finset.mem_filter, Finset.mem_union, Finset.not_mem_empty, iff_false,
      not_and]
    tauto
  · ext x
    simp only [Finset.mem_filter, Finset.mem_union, Finset.not_mem_empty, iff_false,
      not_and]
    tauto

/-- Re-running the listener on unchanged coordinator data from the state of
a successful run succeeds, keeps the state, and adds and removes nothing. -/
theorem coordinatorUpdateListener_stable (d : CoordData) (st : SensorsState)
    (res : ListenerResult) (h : coordinatorUpdateListener (some d) st = Except.ok res) :
    coordinatorUpdateListener (some d) res.state = Except.ok ⟨res.state, ∅, ∅, ∅, ∅⟩ := by
  obtain ⟨hz, rfl⟩ := coordinatorUpdateListener_ok_elim d st res h
  rw [coordinatorUpdateListener_ok d _ hz, listenerNormalResult_stable]

/-! ## Folded sums as mapped sums -/

/-- A left fold whose step adds a per-element contribution is the sum of the
contributions. -/
theorem foldl_add_of_contribution {α : Type} (g : Rat → α → Rat) (f : α → Rat)
    (hg : ∀ t x, g t x = t + f x) (l : List α) (init : Rat) :
    l.foldl g init = init + (l.map f).sum := by
  induction l generalizing init with
  | nil => simp
  | cons x l ih => rw [List.foldl_cons, hg, ih, List.map_cons, List.sum_cons]; ring

/-- The primary net-worth total decomposes into the manual `to_base` sum
plus the Plaid matched-currency sum. -/
theorem netWorthTotal_decomp (inverted : List String) (d : CoordData) :
    netWorthTotal inverted d =
      manualToBaseSum inverted d.manual_assets
        + plaidPrimarySum inverted (userPrimaryCurrency d) d.plaid_accounts := by
  have hm : ∀ (t : Rat) (e : Nat × AssetsObject),
      (match e.2.to_base with
       | none => t
       | some base_value =>
         if e.2.type_name.toLower ∈ inverted then t - base_value else t + base_value)
        = t + manualToBaseContribution inverted e.2 := by
    intro t e
    unfold manualToBaseContribution
    cases hb : e.2.to_base <;> simp only [hb]
    · ring
    · by_cases hinv : e.2.type_name.toLower ∈ inverted <;> simp [hinv] <;> ring
  have hp : ∀ (t : Rat) (e : Nat × PlaidAccountObject),
      (match e.2.balance, e.2.currency with
       | some b, some c =>
         match userPrimaryCurrency d with
         | some u =>
           if c.toLower = u then
             (if e.2.type.toLower ∈ inverted then t - b else t + b)
           else t
         | none => t
       | _, _ => t)
        = t + plaidPrimaryContribution inverted (userPrimaryCurrency d) e.2 := by
    intro t e
    unfold plaidPrimaryContribution
    cases hb : e.2.balance with
    | none =>
      cases hc : e.2.currency <;> cases hu : userPrimaryCurrency d <;>
        simp only [hb, hc, hu] <;> ring
    | some b =>
      cases hc : e.2.currency with
      | none =>
        cases hu : userPrimaryCurrency d <;> simp only [hb, hc, hu] <;> ring
      | some c =>
        cases hu : userPrimaryCurrency d with
        | none => simp only [hb, hc, hu]; ring
        | some u =>
          simp only [hb, hc, hu]
          by_cases hcu : c.toLower = u
          · by_cases hinv : e.2.type.toLower ∈ inverted <;> simp [hcu, hinv] <;> ring
          · simp [hcu]
  unfold netWorthTotal manualToBaseSum plaidPrimarySum
  rw [foldl_add_of_contribution _ _ hp, foldl_add_of_contribution _ _ hm]
  ring

/-- The per-currency net-worth total decomposes into per-record
contributions over all records of the data. -/
theorem currencyNetWorthTotal_decomp (inverted : List String) (c : String) (d : CoordData) :
    currencyNetWorthTotal inverted c d =
      (d.manual_assets.map fun e => manualCurrencyContribution inverted c e.2).sum
        + (d.plaid_accounts.map fun e => plaidCurrencyContribution inverted c e.2).sum := by
  have hm : ∀ (t : Rat) (e : Nat × AssetsObject),
      (match e.2.currency with
       | some cc =>
         if cc ≠ "" ∧ cc.toUpper = c then
           match manualParsedBalance e.2 with
           | some b => if e.2.type_name.toLower ∈ inverted then t - b else t + b
           | none => t
         else t
       | none => t)
        = t + manualCurrencyContribution inverted c e.2 := by
    intro t e
    unfold manualCurrencyContribution
    cases hcur : e.2.currency with
    | none => simp only [hcur]; ring
    | some cc =>
      simp only [hcur]
      by_cases hcc : cc ≠ "" ∧ cc.toUpper = c
      · cases hb : manualParsedBalance e.2 with
        | none => simp [hcc, hb]
        | some b =>
          by_cases hinv : e.2.type_name.toLower ∈ inverted <;> simp [hcc, hb, hinv] <;> ring
      · simp [hcc]
  have hp : ∀ (t : Rat) (e : Nat × PlaidAccountObject),
      (match e.2.currency with
       | some cc =>
         if cc ≠ "" ∧ cc.toUpper = c then
           match e.2.balance with
           | some b => if e.2.type.toLower ∈ inverted then t - b else t + b
           | none => t
         else t
       | none => t)
        = t + plaidCurrencyContribution inverted c e.2 := by
    intro t e
    unfold plaidCurrencyContribution
    cases hcur : e.2.currency with
    | none => simp only [hcur]; ring
    | some cc =>
      simp only [hcur]
      by_cases hcc : cc ≠ "" ∧ cc.toUpper = c
      · cases hb : e.2.balance with
        | none => simp [hcc, hb]
        | some b =>
          by_cases hinv : e.2.type.toLower ∈ inverted <;> simp [hcc, hb, hinv] <;> ring
      · simp [hcc]
  unfold currencyNetWorthTotal
  rw [foldl_add_of_contribution _ _ hp, foldl_add_of_contribution _ _ hm]
  ring

/-! ## Key and currency sets of concatenated record lists -/

/-- Inserting a currency into the left part of a union. -/
theorem currencyInsert_union_left (oc : Option String) (A B : Finset String) :
    currencyInsert oc (A ∪ B) = currencyInsert oc A ∪ B := by
  match oc with
  | none => rfl
  | some c =>
    simp only [currencyInsert]
    by_cases hc : c = ""
    · simp [hc]
    · simp [hc, Finset.insert_union]

/-- Manual keys of a concatenation. -/
theorem manualKeys_append (l1 l2 : List (Nat × AssetsObject)) :
    manualKeys (l1 ++ l2) = manualKeys l1 ∪ manualKeys l2 := by
  induction l1 with
  | nil => simp [manualKeys]
  | cons e l ih => simp [manualKeys, ih, Finset.insert_union]

/-- Non-zero manual keys of a concatenation. -/
theorem manualNZKeys_append (l1 l2 : List (Nat × AssetsObject)) :
    manualNZKeys (l1 ++ l2) = manualNZKeys l1 ∪ manualNZKeys l2 := by
  induction l1 with
  | nil => simp [manualNZKeys]
  | cons e l ih =>
    cases hz : manualIsZeroBalance e.2 <;>
      simp [manualNZKeys, hz, ih, Finset.insert_union]

/-- Manual currencies of a concatenation. -/
theorem manualCurrencies_append (l1 l2 : List (Nat × AssetsObject)) :
    manualCurrencies (l1 ++ l2) = manualCurrencies l1 ∪ manualCurrencies l2 := by
  induction l1 with
  | nil => simp [manualCurrencies]
  | cons e l ih => simp [manualCurrencies, ih, currencyInsert_union_left]

/-! ## Claim theorems -/

/-- Claim C1 (code bug).  The spec says a tracked record whose key is still
present but whose balance became zero lands in the removed set and leaves
the tracked mapping.  The code disagrees: every present record's unique id
is added to the desired set before the zero test, and the removal loop only
removes ids absent from the desired set, so the zero-balance record's sensor
survives -- even though the source's own log message and comment in that
branch say it is being marked for removal to be handled by the removal loop.
At the failing input (manual asset 7 tracked, now reporting balance "0") the
listener keeps the key active and removes nothing. -/
theorem zero_balance_present_record_not_removed :
    coordinatorUpdateListener (some dataC1) stateC1 =
      Except.ok ⟨⟨{SensorKey.manual 7}, ∅⟩, ∅, ∅, ∅, ∅⟩ := by
  with_unfolding_all rfl

/-- Claim C3 (code bug).  The claim says the listener always completes its
reconciliation cycle.  It does not: for any coordinator data containing a
Plaid account whose balance is absent or below epsilon, the branch
`elif is_zero_balance and unique_id in active_sensors:` evaluates the
undefined name `active_sensors` and raises `NameError`.  Here the listener
aborts on a single Plaid account with an absent balance. -/
theorem zero_balance_plaid_record_raises_name_error :
    coordinatorUpdateListener (some dataC3) stateEmpty
      = Except.error ListenerError.nameError := by
  with_unfolding_all rfl

/-- Claim C2, counterexample.  The claim ties Plaid inclusion in the primary
total to the **configured** `primary_currency` (stored upper-cased by the
config flow).  The net-worth sensor never reads that option: it compares
against the currency of the fetched user profile.  With the config option
storing "USD" but the user profile reporting EUR, the spec's example (Linked
USD 50 and EUR 30) yields 30, not the claimed 50: the USD record is
excluded and the EUR record included. -/
theorem primary_total_ignores_configured_primary_currency :
    (configFlowCreatedOptions 720 "usd").primary_currency = "USD"
    ∧ netWorthTotal (configFlowCreatedOptions 720 "usd").inverted_asset_types dataC2cx = 30
    ∧ netWorthTotal (configFlowCreatedOptions 720 "usd").inverted_asset_types dataC2cx ≠ 50 := by
  refine ⟨by with_unfolding_all rfl, by with_unfolding_all rfl, ?_⟩
  have h30 : netWorthTotal (configFlowCreatedOptions 720 "usd").inverted_asset_types dataC2cx
      = 30 := by with_unfolding_all rfl
  rw [h30]
  norm_num

/-- Claim C2, amended.  A Linked record's native balance enters the primary
total (signed by the inversion rule) exactly when its balance and currency
are present and its lower-cased currency equals the lower-cased currency of
the fetched user profile; otherwise it contributes nothing and no conversion
is applied.  The spec's example holds when the user profile currency is USD:
the primary total is 50. -/
theorem plaid_primary_inclusion_matches_user_profile_currency
    (inverted : List String) (manuals : List (Nat × AssetsObject))
    (plaids : List (Nat × PlaidAccountObject)) (user : Option UserObject)
    (i : Nat) (p : PlaidAccountObject) :
    netWorthTotal inverted ⟨manuals, plaids ++ [(i, p)], user⟩
      = netWorthTotal inverted ⟨manuals, plaids, user⟩
        + plaidPrimaryContribution inverted (userPrimaryCurrency ⟨manuals, plaids, user⟩) p
    ∧ netWorthTotal DEFAULT_INVERTED_ASSET_TYPES dataC2ok = 50 := by
  constructor
  · have hu : userPrimaryCurrency ⟨manuals, plaids ++ [(i, p)], user⟩
        = userPrimaryCurrency ⟨manuals, plaids, user⟩ := rfl
    rw [netWorthTotal_decomp, netWorthTotal_decomp, hu]
    dsimp only
    simp only [plaidPrimarySum, List.map_append, List.sum_append, List.map_cons,
      List.map_nil, List.sum_cons, List.sum_nil]
    ring
  · with_unfolding_all rfl

/-- Claim C4, counterexample.  The claim equates the per-currency total with
the signed sum over **tracked** records of that currency.  The currency
sensor sums over all records in the coordinator data with no epsilon check:
a sub-epsilon USD manual asset (balance 0.0000001) gives a USD sensor total
of 1/10000000 while the tracked-records sum modelled from the spec is 0. -/
theorem per_currency_total_diverges_from_tracked_sum :
    currencyNetWorthTotal DEFAULT_INVERTED_ASSET_TYPES "USD" dataC4 = 1 / 10000000
    ∧ specTrackedPerCurrencyTotal DEFAULT_INVERTED_ASSET_TYPES "USD" dataC4 = 0
    ∧ currencyNetWorthTotal DEFAULT_INVERTED_ASSET_TYPES "USD" dataC4
        ≠ specTrackedPerCurrencyTotal DEFAULT_INVERTED_ASSET_TYPES "USD" dataC4 := by
  refine ⟨by with_unfolding_all rfl, by with_unfolding_all rfl, ?_⟩
  have h1 : currencyNetWorthTotal DEFAULT_INVERTED_ASSET_TYPES "USD" dataC4
      = 1 / 10000000 := by with_unfolding_all rfl
  have h2 : specTrackedPerCurrencyTotal DEFAULT_INVERTED_ASSET_TYPES "USD" dataC4
      = 0 := by with_unfolding_all rfl
  rw [h1, h2]
  norm_num

/-- Claim C4, amended.  The per-currency total for currency C equals the
signed sum of native balances of exactly those records **in the current
data** (tracked or not) whose currency is present, non-empty and
upper-cases to C and whose balance is present and parses; a record of any
other currency contributes nothing, as appending one leaves the total
unchanged. -/
theorem per_currency_total_characterization
    (inverted : List String) (c : String) (d : CoordData) (i : Nat) (a : AssetsObject)
    (hc : ∀ cc, a.currency = some cc → cc.toUpper ≠ c) :
    currencyNetWorthTotal inverted c d
      = (d.manual_assets.map fun e => manualCurrencyContribution inverted c e.2).sum
        + (d.plaid_accounts.map fun e => plaidCurrencyContribution inverted c e.2).sum
    ∧ currencyNetWorthTotal inverted c
        ⟨d.manual_assets ++ [(i, a)], d.plaid_accounts, d.user⟩
      = currencyNetWorthTotal inverted c d := by
  have hzero : manualCurrencyContribution inverted c a = 0 := by
    unfold manualCurrencyContribution
    cases hcur : a.currency with
    | none => rfl
    | some cc =>
      have hnot : ¬(cc ≠ "" ∧ cc.toUpper = c) := fun hand => hc cc hcur hand.2
      simp [hnot]
  refine ⟨currencyNetWorthTotal_decomp inverted c d, ?_⟩
  rw [currencyNetWorthTotal_decomp, currencyNetWorthTotal_decomp]
  dsimp only
  simp only [List.map_append, List.sum_append, List.map_cons, List.map_nil,
    List.sum_cons, List.sum_nil, hzero]
  ring

/-- Witness for the amended C4 theorem at a concrete input: a record with no
currency attribute is not denominated in USD, so appending it leaves the
USD total unchanged. -/
theorem per_currency_total_characterization_witness :
    currencyNetWorthTotal [] "USD" dataW
      = (dataW.manual_assets.map fun e => manualCurrencyContribution [] "USD" e.2).sum
        + (dataW.plaid_accounts.map fun e => plaidCurrencyContribution [] "USD" e.2).sum
    ∧ currencyNetWorthTotal [] "USD"
        ⟨dataW.manual_assets ++ [(9, assetZeroBalance)], dataW.plaid_accounts, dataW.user⟩
      = currencyNetWorthTotal [] "USD" dataW :=
  per_currency_total_characterization [] "USD" dataW 9 assetZeroBalance
    (fun cc hcc => by simp [assetZeroBalance] at hcc)

/-- Claim C5, counterexample.  The claim says a sub-epsilon record
contributes to no aggregate.  It is excluded from the present keys, but the
aggregates apply no epsilon: a single manual asset with balance 0.0000001
in USD makes the USD per-currency total 1/10000000, not 0. -/
theorem sub_epsilon_balance_contributes_to_aggregates :
    presentKeys dataC5 = ∅
    ∧ currencyNetWorthTotal DEFAULT_INVERTED_ASSET_TYPES "USD" dataC5 = 1 / 10000000
    ∧ currencyNetWorthTotal DEFAULT_INVERTED_ASSET_TYPES "USD" dataC5 ≠ 0 := by
  refine ⟨by with_unfolding_all rfl, by with_unfolding_all rfl, ?_⟩
  have h1 : currencyNetWorthTotal DEFAULT_INVERTED_ASSET_TYPES "USD" dataC5
      = 1 / 10000000 := by with_unfolding_all rfl
  rw [h1]
  norm_num

/-- Claim C5, amended.  A sub-epsilon record is excluded from the present
keys and never lands in the added set of a successful listener run (the
added set is contained in the present keys), but its balance still enters
the aggregates: a sub-epsilon USD Plaid balance with a USD user profile
contributes 1/10000000 to the primary total even though its key is not
present. -/
theorem sub_epsilon_excluded_from_tracking_not_aggregates
    (d : CoordData) (st : SensorsState) (res : ListenerResult)
    (h : coordinatorUpdateListener (some d) st = Except.ok res) :
    res.addedBalance ⊆ presentKeys d
    ∧ presentKeys dataC5b = ∅
    ∧ netWorthTotal [] dataC5b = 1 / 10000000 := by
  obtain ⟨hz, rfl⟩ := coordinatorUpdateListener_ok_elim d st res h
  refine ⟨?_, by with_unfolding_all rfl, by with_unfolding_all rfl⟩
  intro x hx
  simp only [listenerNormalResult, Finset.mem_union, Finset.mem_sdiff] at hx
  simp only [presentKeys, Finset.mem_union]
  rw [plaidNZKeys_eq_keys d.plaid_accounts hz]
  rcases hx with ⟨h1, h2⟩ | ⟨h1, h2⟩
  · exact Or.inl h1
  · exact Or.inr h1

/-- Witness for the amended C5 theorem at a concrete input. -/
theorem sub_epsilon_excluded_from_tracking_not_aggregates_witness :
    ({SensorKey.manual 1} : Finset SensorKey) ⊆ presentKeys dataW
    ∧ presentKeys dataC5b = ∅
    ∧ netWorthTotal [] dataC5b = 1 / 10000000 :=
  sub_epsilon_excluded_from_tracking_not_aggregates dataW stateEmpty
    ⟨⟨{SensorKey.manual 1}, {"USD"}⟩, {SensorKey.manual 1}, ∅, {"USD"}, ∅⟩
    (by with_unfolding_all rfl)

/-- Claim C6, counterexample.  The claim equates the primary total with the
`to_base` sum over **tracked** Manual records.  The net-worth sensor sums
`to_base` over all manual assets in the data with no tracking or epsilon
restriction: an asset with an absent balance (hence never tracked) but
`to_base` 100 makes the primary total 100 while the tracked-records sum
modelled from the spec is 0. -/
theorem primary_total_includes_untracked_to_base :
    netWorthTotal [] dataC6cx = 100
    ∧ specTrackedPrimaryManualTotal [] dataC6cx = 0
    ∧ netWorthTotal [] dataC6cx ≠ specTrackedPrimaryManualTotal [] dataC6cx := by
  refine ⟨by with_unfolding_all rfl, by with_unfolding_all rfl, ?_⟩
  have h1 : netWorthTotal [] dataC6cx = 100 := by with_unfolding_all rfl
  have h2 : specTrackedPrimaryManualTotal [] dataC6cx = 0 := by with_unfolding_all rfl
  rw [h1, h2]
  norm_num

/-- Claim C6, amended.  The primary total equals the sum of `to_base` over
every Manual record **in the current data** for which it is present, negated
exactly when the lower-cased `type_name` is in the inverted set, plus the
matched-currency Linked contributions; in particular a Manual record with
`type_name` "credit", `to_base` 100 and inversion set containing "credit"
contributes -100. -/
theorem primary_total_decomposition (inverted : List String) (d : CoordData) :
    netWorthTotal inverted d
      = manualToBaseSum inverted d.manual_assets
        + plaidPrimarySum inverted (userPrimaryCurrency d) d.plaid_accounts
    ∧ netWorthTotal ["credit"] dataC6ok = -100 :=
  ⟨netWorthTotal_decomp inverted d, by with_unfolding_all rfl⟩

/-- Claim C7, counterexample.  The claim says no per-currency value is
published for a currency with zero tracked records.  Currency collection
ignores balances: a single zero-balance EUR manual asset yields no tracked
record at all, yet the listener publishes (keeps active) an EUR currency
net-worth sensor. -/
theorem zero_balance_currency_still_published :
    (coordinatorUpdateListener (some dataC7) stateEmpty).toOption.map
        (fun r => r.state.activeCurrency) = some {"EUR"}
    ∧ presentKeys dataC7 = ∅ :=
  ⟨by with_unfolding_all rfl, by with_unfolding_all rfl⟩

/-- Claim C7, amended.  After every successful refresh, the set of active
per-currency sensors equals exactly the set of upper-cased non-empty
currency codes borne by the records of the current data, balances ignored:
a currency borne by no record at all is dropped, but one borne only by
zero-balance or balance-absent records remains published. -/
theorem active_currencies_equal_record_currencies
    (d : CoordData) (st : SensorsState) (res : ListenerResult)
    (h : coordinatorUpdateListener (some d) st = Except.ok res) :
    res.state.activeCurrency = dataCurrencies d := by
  obtain ⟨hz, rfl⟩ := coordinatorUpdateListener_ok_elim d st res h
  simp only [listenerNormalResult]
  ext x
  simp only [Finset.mem_filter, Finset.mem_union]
  tauto

/-- Witness for the amended C7 theorem at a concrete input. -/
theorem active_currencies_equal_record_currencies_witness :
    ({"USD"} : Finset String) = dataCurrencies dataW :=
  active_currencies_equal_record_currencies dataW stateEmpty
    ⟨⟨{SensorKey.manual 1}, {"USD"}⟩, {SensorKey.manual 1}, ∅, {"USD"}, ∅⟩
    (by with_unfolding_all rfl)

/-- Claim C8 (confirmed).  Reconciliation is idempotent under stable input:
re-running the listener on identical coordinator data from the state a
successful run produced succeeds, keeps the state, and produces empty added
and removed sets for both the balance sensors and the currency sensors. -/
theorem reconciliation_idempotent (d : CoordData) (st : SensorsState) (res : ListenerResult)
    (h : coordinatorUpdateListener (some d) st = Except.ok res) :
    coordinatorUpdateListener (some d) res.state = Except.ok ⟨res.state, ∅, ∅, ∅, ∅⟩ :=
  coordinatorUpdateListener_stable d st res h

/-- Witness for the C8 theorem at a concrete input. -/
theorem reconciliation_idempotent_witness :
    coordinatorUpdateListener (some dataW) (⟨{SensorKey.manual 1}, {"USD"}⟩ : SensorsState)
      = Except.ok ⟨⟨{SensorKey.manual 1}, {"USD"}⟩, ∅, ∅, ∅, ∅⟩ :=
  reconciliation_idempotent dataW stateEmpty
    ⟨⟨{SensorKey.manual 1}, {"USD"}⟩, {SensorKey.manual 1}, ∅, {"USD"}, ∅⟩
    (by with_unfolding_all rfl)

/-- Claim C9 (confirmed).  Balance parsing never raises past the parser: a
manual asset whose balance string fails the decimal parse is processed
exactly as if its balance were absent (the listener result is unchanged
under that substitution, wherever the record sits in the data), and a
refresh over manual assets alone always completes (the only listener
failure mode is the zero-balance Plaid branch of C3). -/
theorem malformed_balance_recovered_locally (s : String) (hs : parseDecimal s = none)
    (pre post : List (Nat × AssetsObject)) (i : Nat) (a : AssetsObject)
    (plaids : List (Nat × PlaidAccountObject)) (user : Option UserObject)
    (st : SensorsState) :
    coordinatorUpdateListener
        (some ⟨pre ++ (i, { a with balance := some s }) :: post, plaids, user⟩) st
      = coordinatorUpdateListener
        (some ⟨pre ++ (i, { a with balance := none }) :: post, plaids, user⟩) st
    ∧ ∀ manuals : List (Nat × AssetsObject), ∃ r,
        coordinatorUpdateListener (some ⟨manuals, [], user⟩) st = Except.ok r := by
  constructor
  · have hzs : manualIsZeroBalance { a with balance := some s } = true := by
      simp [manualIsZeroBalance, manualParsedBalance, hs]
    have hzn : manualIsZeroBalance { a with balance := none } = true := by
      simp [manualIsZeroBalance, manualParsedBalance]
    simp only [coordinatorUpdateListener]
    rw [manualStep_foldl, manualStep_foldl]
    have hkeys : manualKeys (pre ++ (i, { a with balance := some s }) :: post)
        = manualKeys (pre ++ (i, { a with balance := none }) :: post) := by
      simp [manualKeys_append, manualKeys]
    have hnz : manualNZKeys (pre ++ (i, { a with balance := some s }) :: post)
        = manualNZKeys (pre ++ (i, { a with balance := none }) :: post) := by
      simp [manualNZKeys_append, manualNZKeys, hzs, hzn]
    have hcur : manualCurrencies (pre ++ (i, { a with balance := some s }) :: post)
        = manualCurrencies (pre ++ (i, { a with balance := none }) :: post) := by
      simp [manualCurrencies_append, manualCurrencies, currencyInsert]
    rw [hkeys, hnz, hcur]
  · intro manuals
    exact ⟨_, coordinatorUpdateListener_ok ⟨manuals, [], user⟩ st (by simp)⟩

/-- Witness for the C9 theorem at a concrete input: the unparseable balance
string "abc". -/
theorem malformed_balance_recovered_locally_witness :
    coordinatorUpdateListener
        (some ⟨[] ++ (1, { assetCash100 with balance := some "abc" }) :: [], [], none⟩)
        stateEmpty
      = coordinatorUpdateListener
        (some ⟨[] ++ (1, { assetCash100 with balance := none }) :: [], [], none⟩)
        stateEmpty :=
  (malformed_balance_recovered_locally "abc" (by rfl) [] [] 1 assetCash100 [] none
    stateEmpty).1

/-- Claim C10 (confirmed).  A fetch failure is surfaced as the
distinguishable `UpdateFailed` error carrying the fetch message, and no
tracked or aggregate state is mutated: the listener leaves the state
untouched when no coordinator data exists, and re-running it over the
retained (unchanged) data from the state of a successful run keeps the
state with empty added and removed sets.  The aggregates are pure functions
of the same retained data, so their published values are unchanged too. -/
theorem fetch_failure_surfaced_and_state_preserved (msg : String) (st : SensorsState)
    (d : CoordData) (res : ListenerResult)
    (h : coordinatorUpdateListener (some d) st = Except.ok res) :
    asyncUpdateData (FetchOutcome.failure msg)
        = Except.error ⟨"Error communicating with API: " ++ msg⟩
    ∧ coordinatorUpdateListener none st = Except.ok ⟨st, ∅, ∅, ∅, ∅⟩
    ∧ coordinatorUpdateListener (some d) res.state = Except.ok ⟨res.state, ∅, ∅, ∅, ∅⟩ :=
  ⟨rfl, rfl, coordinatorUpdateListener_stable d st res h⟩

/-- Witness for the C10 theorem at a concrete input. -/
theorem fetch_failure_surfaced_and_state_preserved_witness :
    asyncUpdateData (FetchOutcome.failure "boom")
        = Except.error ⟨"Error communicating with API: " ++ "boom"⟩
    ∧ coordinatorUpdateListener none stateEmpty = Except.ok ⟨stateEmpty, ∅, ∅, ∅, ∅⟩
    ∧ coordinatorUpdateListener (some dataW) (⟨{SensorKey.manual 1}, {"USD"}⟩ : SensorsState)
        = Except.ok ⟨⟨{SensorKey.manual 1}, {"USD"}⟩, ∅, ∅, ∅, ∅⟩ :=
  fetch_failure_surfaced_and_state_preserved "boom" stateEmpty dataW
    ⟨⟨{SensorKey.manual 1}, {"USD"}⟩, {SensorKey.manual 1}, ∅, {"USD"}, ∅⟩
    (by with_unfolding_all rfl)

end LunchMoneyBalances
